import Mathlib

/-!
Verification of the g-copilot-proxy protocol-translation core.

This file gives a shallow embedding of the proxy's two mappers
(`mapper-openai.ts` and `mapper-anthropic.ts`), the model-alias tables,
the auth middleware (`auth/middleware.ts`), the credential storage
(`auth/storage.ts`) and the chat-completions route handler
(`api/openai/routes.ts`), together with theorems about the claims of the
specification.  JavaScript numbers that hold timestamps are modelled as
`Int` (JS subtraction can go negative); token counts are `Nat`; JS
`undefined`/missing optional fields are `Option`; functions that can throw
are `Except String`.
-/

namespace GCopilotProxy

/-! ## JSON values and an executable model of JS `JSON.parse` / `JSON.stringify`

The OpenAI mapper calls `JSON.parse` on a tool call's `arguments` string and
`JSON.stringify` when re-serializing tool-call arguments.  `Json` models the
parsed value; numeric literals are kept as their source text (no claim in
this development depends on numeric value semantics).
-/

inductive Json where
  | null : Json
  | bool (b : Bool) : Json
  | num (lit : String) : Json
  | str (s : String) : Json
  | arr (items : List Json) : Json
  | obj (fields : List (String × Json)) : Json

/-- Whitespace characters skipped by the JSON grammar. -/
def isJsonWs (c : Char) : Bool :=
  c = ' ' || c = '\t' || c = '\n' || c = '\r'

/-- Drop leading JSON whitespace. -/
def skipWs : List Char → List Char
  | [] => []
  | c :: cs => if isJsonWs c then skipWs cs else c :: cs

def isHexDigitChar (c : Char) : Bool :=
  (('0' : Char) ≤ c && c ≤ '9') || (('a' : Char) ≤ c && c ≤ 'f') || (('A' : Char) ≤ c && c ≤ 'F')

def hexVal (c : Char) : Nat :=
  if ('0' : Char) ≤ c && c ≤ '9' then c.toNat - '0'.toNat
  else if ('a' : Char) ≤ c && c ≤ 'f' then c.toNat - 'a'.toNat + 10
  else if ('A' : Char) ≤ c && c ≤ 'F' then c.toNat - 'A'.toNat + 10
  else 0

/-- Parse the body of a JSON string literal (after the opening quote),
returning the decoded string and the remaining input. -/
def parseStringBody : List Char → List Char → Option (String × List Char)
  | [], _ => none
  | c :: rest, acc =>
    if c = '"' then some (String.mk acc.reverse, rest)
    else if c = '\\' then
      match rest with
      | [] => none
      | e :: rest2 =>
        if e = '"' then parseStringBody rest2 ('"' :: acc)
        else if e = '\\' then parseStringBody rest2 ('\\' :: acc)
        else if e = '/' then parseStringBody rest2 ('/' :: acc)
        else if e = 'b' then parseStringBody rest2 (Char.ofNat 8 :: acc)
        else if e = 'f' then parseStringBody rest2 (Char.ofNat 12 :: acc)
        else if e = 'n' then parseStringBody rest2 ('\n' :: acc)
        else if e = 'r' then parseStringBody rest2 ('\r' :: acc)
        else if e = 't' then parseStringBody rest2 ('\t' :: acc)
        else if e = 'u' then
          match rest2 with
          | h1 :: h2 :: h3 :: h4 :: rest3 =>
            if isHexDigitChar h1 && isHexDigitChar h2 && isHexDigitChar h3 && isHexDigitChar h4 then
              parseStringBody rest3
                (Char.ofNat (hexVal h1 * 4096 + hexVal h2 * 256 + hexVal h3 * 16 + hexVal h4) :: acc)
            else none
          | _ => none
        else none
    else parseStringBody rest (c :: acc)

def isDigitChar (c : Char) : Bool := ('0' : Char) ≤ c && c ≤ '9'

/-- Consume one or more decimal digits. -/
def takeDigits : List Char → (List Char × List Char)
  | [] => ([], [])
  | c :: cs =>
    if isDigitChar c then
      let (ds, rest) := takeDigits cs
      (c :: ds, rest)
    else ([], c :: cs)

/-- Parse a JSON number literal: optional minus, integer part (no leading
zeros except a lone zero), optional fraction, optional exponent. -/
def parseNumberLit (cs : List Char) : Option (String × List Char) :=
  let (minusPart, afterMinus) :=
    match cs with
    | '-' :: rest => ([('-' : Char)], rest)
    | _ => ([], cs)
  match takeDigits afterMinus with
  | ([], _) => none
  | (intDigits, afterInt) =>
    if intDigits.length > 1 && intDigits.headD '0' = '0' then none
    else
      match afterInt with
      | '.' :: rest =>
        match takeDigits rest with
        | ([], _) => none
        | (fracDigits, afterFracDigits) =>
          parseNumberExp (minusPart ++ intDigits ++ ('.' : Char) :: fracDigits) afterFracDigits
      | _ => parseNumberExp (minusPart ++ intDigits) afterInt
where
  parseNumberExp (lit : List Char) (cs : List Char) : Option (String × List Char) :=
    match cs with
    | c :: rest =>
      if c = 'e' || c = 'E' then
        let (signPart, afterSign) :=
          match rest with
          | '+' :: r => ([('+' : Char)], r)
          | '-' :: r => ([('-' : Char)], r)
          | _ => ([], rest)
        match takeDigits afterSign with
        | ([], _) => none
        | (ds, rest2) => some (String.mk (lit ++ c :: signPart ++ ds), rest2)
      else some (String.mk lit, c :: rest)
    | [] => some (String.mk lit, [])

/-- Check that the input starts with the given literal characters. -/
def expectChars : List Char → List Char → Option (List Char)
  | [], cs => some cs
  | l :: ls, c :: cs => if c = l then expectChars ls cs else none
  | _ :: _, [] => none

mutual

/-- Fueled recursive-descent parser for one JSON value. -/
def parseValue : Nat → List Char → Option (Json × List Char)
  | 0, _ => none
  | Nat.succ fuel, cs =>
    match skipWs cs with
    | [] => none
    | c :: rest =>
      if c = 'n' then (expectChars ['u', 'l', 'l'] rest).map (fun r => (Json.null, r))
      else if c = 't' then (expectChars ['r', 'u', 'e'] rest).map (fun r => (Json.bool true, r))
      else if c = 'f' then (expectChars ['a', 'l', 's', 'e'] rest).map (fun r => (Json.bool false, r))
      else if c = '"' then (parseStringBody rest []).map (fun p => (Json.str p.1, p.2))
      else if c = '[' then
        match skipWs rest with
        | ']' :: rest2 => some (Json.arr [], rest2)
        | rest2 => parseArrayItems fuel rest2 []
      else if c = '\x7b' then
        match skipWs rest with
        | '\x7d' :: rest2 => some (Json.obj [], rest2)
        | rest2 => parseObjectItems fuel rest2 []
      else (parseNumberLit (c :: rest)).map (fun p => (Json.num p.1, p.2))

/-- Parse the items of a non-empty JSON array, accumulator in reverse. -/
def parseArrayItems : Nat → List Char → List Json → Option (Json × List Char)
  | 0, _, _ => none
  | Nat.succ fuel, cs, acc =>
    match parseValue fuel cs with
    | none => none
    | some (v, rest) =>
      match skipWs rest with
      | ',' :: rest2 => parseArrayItems fuel rest2 (v :: acc)
      | ']' :: rest2 => some (Json.arr (v :: acc).reverse, rest2)
      | _ => none

/-- Parse the fields of a non-empty JSON object, accumulator in reverse. -/
def parseObjectItems : Nat → List Char → List (String × Json) → Option (Json × List Char)
  | 0, _, _ => none
  | Nat.succ fuel, cs, acc =>
    match skipWs cs with
    | '"' :: rest =>
      match parseStringBody rest [] with
      | none => none
      | some (key, rest2) =>
        match skipWs rest2 with
        | ':' :: rest3 =>
          match parseValue fuel rest3 with
          | none => none
          | some (v, rest4) =>
            match skipWs rest4 with
            | ',' :: rest5 => parseObjectItems fuel rest5 ((key, v) :: acc)
            | '\x7d' :: rest5 => some (Json.obj ((key, v) :: acc).reverse, rest5)
            | _ => none
        | _ => none
    | _ => none

end

/-- Executable model of JS `JSON.parse`: `none` models a thrown
`SyntaxError`.  The whole input (up to trailing whitespace) must be
consumed. -/
def jsonParse (s : String) : Option Json :=
  match parseValue (s.length + 2) s.data with
  | some (v, rest) => if skipWs rest = [] then some v else none
  | none => none

/-- Escape one character for a JSON string literal. -/
def escapeChar (c : Char) : String :=
  if c = '"' then "\\\""
  else if c = '\\' then "\\\\"
  else if c = '\n' then "\\n"
  else if c = '\r' then "\\r"
  else if c = '\t' then "\\t"
  else String.singleton c

def escapeString (s : String) : String :=
  "\"" ++ String.join (s.data.map escapeChar) ++ "\""

/-- Join serialized items with commas. -/
def commaJoin : List String → String
  | [] => ""
  | [x] => x
  | x :: xs => x ++ "," ++ commaJoin xs

mutual

/-- Executable model of JS `JSON.stringify` (no spacing argument). -/
def jsonStringify : Json → String
  | Json.null => "null"
  | Json.bool b => if b then "true" else "false"
  | Json.num lit => lit
  | Json.str s => escapeString s
  | Json.arr items => "[" ++ commaJoin (stringifyItems items) ++ "]"
  | Json.obj fields => "\x7b" ++ commaJoin (stringifyFields fields) ++ "\x7d"

def stringifyItems : List Json → List String
  | [] => []
  | v :: vs => jsonStringify v :: stringifyItems vs

def stringifyFields : List (String × Json) → List String
  | [] => []
  | (k, v) :: fs => (escapeString k ++ ":" ++ jsonStringify v) :: stringifyFields fs

end

/-! ## Internal (pi-ai) data model

The mappers produce plain JS objects typed loosely as pi-ai messages.  The
embedding keeps the runtime shape: a message content element can be a raw
string (the OpenAI mapper pushes the unconverted string), a typed block, or
a whole array pushed as a single element (the OpenAI mapper wraps
`convertContent`'s result in a one-element array). -/

/-- One typed pi-ai content block as built by the mappers. -/
inductive PiBlock where
  | text (text : String)
  | image (data : String) (mimeType : Option String)
  | toolCall (id : String) (name : String) (arguments : Json)
  | thinking (thinking : String)

/-- One element of a message's `content` array, at runtime shape. -/
inductive ContentElem where
  | raw (s : String)
  | blk (b : PiBlock)
  | nested (bs : List PiBlock)

/-- A pi-ai message as the mappers construct it.  Fields the code does not
set on a given role stay `none`. -/
structure PiMessage where
  role : String
  content : List ContentElem
  toolCallId : Option String := none
  toolName : Option String := none
  isError : Option Bool := none
  timestamp : Option Nat := none

/-- A pi-ai tool definition. -/
structure Tool where
  name : String
  description : String
  parameters : Option Json

/-- The pi-ai context produced by both request mappers. -/
structure Context where
  systemPrompt : Option String
  messages : List PiMessage
  tools : Option (List Tool)

/-- Token usage on a pi-ai assistant message. -/
structure Usage where
  input : Nat
  output : Nat

/-- A pi-ai assistant message as consumed by the response mappers. -/
structure AssistantMessage where
  content : List PiBlock
  stopReason : String
  usage : Usage

/-- Model of the JS `||` fallback on an optional string: `undefined` and the
empty string (both falsy) select the default. -/
def jsOrString (v : Option String) (dflt : String) : String :=
  match v with
  | some s => if s = "" then dflt else s
  | none => dflt

/-- Model of the regex match against a data URI,
`url.match(/^data:([^;]+);base64,(.+)$/)`: returns (MIME type, payload) on
success.  The MIME group is everything up to the first semicolon (nonempty,
no semicolon); the payload is the nonempty remainder after the literal
`base64,`, with no line terminator (JS dot excludes them). -/
def splitAtSemicolon : List Char → Option (List Char × List Char)
  | [] => none
  | c :: cs =>
    if c = ';' then some ([], cs)
    else (splitAtSemicolon cs).map (fun p => (c :: p.1, p.2))

def isJsLineTerminator (c : Char) : Bool :=
  c = '\n' || c = '\r' || c.toNat = 8232 || c.toNat = 8233

def parseDataUrl (url : String) : Option (String × String) :=
  match expectChars ['d', 'a', 't', 'a', ':'] url.data with
  | none => none
  | some afterScheme =>
    match splitAtSemicolon afterScheme with
    | none => none
    | some (mimeChars, afterSemi) =>
      if mimeChars.isEmpty then none
      else
        match expectChars ['b', 'a', 's', 'e', '6', '4', ','] afterSemi with
        | none => none
        | some payload =>
          if payload.isEmpty then none
          else if payload.any isJsLineTerminator then none
          else some (String.mk mimeChars, String.mk payload)

/-! ## Format A (OpenAI-style) request types, from `mapper-openai.ts` -/

/-- The `image_url` field of an OpenAI image content block: either a bare
string or an object with a `url` field (the code unwraps both to the URL). -/
inductive ImageUrlField where
  | direct (url : String)
  | wrapped (url : String)

def ImageUrlField.url : ImageUrlField → String
  | .direct u => u
  | .wrapped u => u

/-- One OpenAI content block (`OpenAIContentSchema` array members). -/
inductive OAIContentBlock where
  | text (text : String)
  | image_url (field : ImageUrlField)

/-- OpenAI message content: a string or an array of blocks. -/
inductive OAIContent where
  | str (s : String)
  | blocks (bs : List OAIContentBlock)

/-- OpenAI chat roles (`OpenAIRoleSchema`). -/
inductive OAIRole where
  | system
  | user
  | assistant
  | tool
deriving DecidableEq

/-- An OpenAI tool call (id plus the `function.name` / `function.arguments`
pair; the discriminant `type` is the literal string `function`). -/
structure OAIToolCall where
  id : String
  name : String
  arguments : String

/-- An OpenAI chat message (`OpenAIMessageSchema`). -/
structure OAIMessage where
  role : OAIRole
  content : Option OAIContent := none
  tool_calls : Option (List OAIToolCall) := none
  tool_call_id : Option String := none
  name : Option String := none

/-- An OpenAI tool definition (the `function` payload of
`OpenAIToolSchema`). -/
structure OAIFunctionDef where
  name : String
  description : Option String := none
  parameters : Option Json := none

/-- An OpenAI chat completion request (the fields `toPiAiContext` and the
route handler read). -/
structure OAIChatRequest where
  model : String
  messages : List OAIMessage
  stream : Bool := false
  tools : Option (List OAIFunctionDef) := none

namespace MapperOpenAI

/-- The static OpenAI-side alias table (`MODEL_ALIASES`). -/
def MODEL_ALIASES : List (String × String) :=
  [("gpt-4", "claude-sonnet-4.5"),
   ("gpt-4-turbo", "claude-sonnet-4.5"),
   ("gpt-4o", "claude-sonnet-4.5"),
   ("gpt-4o-mini", "claude-haiku-4.5"),
   ("gpt-3.5-turbo", "gpt-4.1"),
   ("claude-3-opus", "claude-opus-4.5"),
   ("claude-3-sonnet", "claude-sonnet-4.5"),
   ("claude-3-haiku", "claude-haiku-4.5")]

/-- `MODEL_ALIASES[model] || model` (no table value is falsy, so `||` is a
plain lookup fallback). -/
def resolveModelAlias (model : String) : String :=
  jsOrString (MODEL_ALIASES.lookup model) model

/-- Runtime result of `convertContent`: the input string unchanged, a single
block (when the array had exactly one element), or the whole block array. -/
inductive ConvertedContent where
  | s (s : String)
  | block (b : PiBlock)
  | blocks (bs : List PiBlock)

/-- Convert one OpenAI content block (the body of `convertContent`'s map). -/
def convertBlock : OAIContentBlock → PiBlock
  | .text t => PiBlock.text t
  | .image_url f =>
    match parseDataUrl f.url with
    | some (mime, payload) => PiBlock.image payload (some mime)
    | none => PiBlock.image f.url none

/-- `convertContent`: strings pass through; arrays are mapped and collapsed
to a single item when they have exactly one element. -/
def convertContent : OAIContent → ConvertedContent
  | .str s => .s s
  | .blocks bs =>
    let converted := bs.map convertBlock
    match converted with
    | [b] => .block b
    | _ => .blocks converted

/-- JS truthiness of a message content value: the empty string is falsy,
every array (even empty) is truthy. -/
def contentTruthy : OAIContent → Bool
  | .str s => s ≠ ""
  | .blocks _ => true

/-- `msg.content || ""` (also models the ternary `msg.content ? ... : ""`,
since `convertContent` maps the empty string to itself). -/
def jsOrEmptyContent (c : Option OAIContent) : OAIContent :=
  match c with
  | some v => if contentTruthy v then v else OAIContent.str ""
  | none => OAIContent.str ""

/-- Wrap a `convertContent` result as the single pushed content element. -/
def elemOf : ConvertedContent → ContentElem
  | .s s => ContentElem.raw s
  | .block b => ContentElem.blk b
  | .blocks bs => ContentElem.nested bs

/-- The assistant branch's text handling: a nonempty string becomes a text
block; a single converted block is pushed only if it is a text block;
arrays and images contribute nothing. -/
def assistantTextBlocks : ConvertedContent → List PiBlock
  | .s s => if s ≠ "" then [PiBlock.text s] else []
  | .block b =>
    match b with
    | PiBlock.text t => [PiBlock.text t]
    | _ => []
  | .blocks _ => []

/-- Convert the assistant message's `tool_calls`, parsing each arguments
string with `JSON.parse`; a parse failure throws (`Except.error`). -/
def mkToolCallBlocks : List OAIToolCall → Except String (List PiBlock)
  | [] => Except.ok []
  | tc :: rest =>
    match jsonParse tc.arguments with
    | none => Except.error "Unexpected token in JSON"
    | some args => do
      let tl ← mkToolCallBlocks rest
      Except.ok (PiBlock.toolCall tc.id tc.name args :: tl)

/-- The assistant branch's tool-call handling: no `tool_calls` array means
no blocks; otherwise convert (and possibly throw on) each entry. -/
def assistantToolBlocks (tool_calls : Option (List OAIToolCall)) : Except String (List PiBlock) :=
  match tool_calls with
  | none => Except.ok []
  | some tcs => mkToolCallBlocks tcs

/-- One iteration of the message loop of `toPiAiContext`: the list of pi-ai
messages pushed for this OpenAI message (empty for `system`). -/
def convertMessage (now : Nat) (msg : OAIMessage) : Except String (List PiMessage) :=
  match msg.role with
  | OAIRole.system => Except.ok []
  | OAIRole.user =>
    Except.ok [{ role := "user",
                 content := [elemOf (convertContent (jsOrEmptyContent msg.content))],
                 timestamp := some now }]
  | OAIRole.assistant => do
    let textBlocks := assistantTextBlocks (convertContent (jsOrEmptyContent msg.content))
    let tcBlocks ← assistantToolBlocks msg.tool_calls
    Except.ok [{ role := "assistant",
                 content := (textBlocks ++ tcBlocks).map ContentElem.blk }]
  | OAIRole.tool =>
    Except.ok [{ role := "toolResult",
                 content := [elemOf (convertContent (jsOrEmptyContent msg.content))],
                 toolCallId := some (msg.tool_call_id.getD ""),
                 toolName := some (msg.name.getD ""),
                 isError := some false,
                 timestamp := some now }]

/-- The message loop of `toPiAiContext` over the whole request. -/
def convertMessages (now : Nat) : List OAIMessage → Except String (List PiMessage)
  | [] => Except.ok []
  | msg :: rest => do
    let hd ← convertMessage now msg
    let tl ← convertMessages now rest
    Except.ok (hd ++ tl)

/-- Is this block a text block (the `find` in system-prompt extraction)? -/
def isTextBlock : OAIContentBlock → Bool
  | .text _ => true
  | _ => false

/-- System-prompt extraction: first `system` message wins; falsy content
gives `undefined`; for array content, the first text block's text (falsy
fallback to the empty string). -/
def extractSystemPrompt (messages : List OAIMessage) : Option String :=
  match messages.find? (fun m => m.role == OAIRole.system) with
  | none => none
  | some m =>
    match m.content with
    | none => none
    | some c =>
      if contentTruthy c then
        match c with
        | OAIContent.str s => some s
        | OAIContent.blocks bs =>
          some (match bs.find? isTextBlock with
                | some (OAIContentBlock.text t) => t
                | _ => "")
      else none

/-- `convertTools`: copy name, `description || ""` and parameters. -/
def convertTools (tools : Option (List OAIFunctionDef)) : Option (List Tool) :=
  match tools with
  | none => none
  | some ts => some (ts.map (fun t => { name := t.name,
                                        description := jsOrString t.description "",
                                        parameters := t.parameters }))

/-- `toPiAiContext` of `mapper-openai.ts`: normalize an OpenAI request into
a pi-ai context; throws when a tool call's arguments string is not valid
JSON. -/
def toPiAiContext (now : Nat) (request : OAIChatRequest) : Except String Context := do
  let msgs ← convertMessages now request.messages
  Except.ok { systemPrompt := extractSystemPrompt request.messages,
              messages := msgs,
              tools := convertTools request.tools }

end MapperOpenAI

/-! ## Backend stream events

The shape the streaming mappers read off a backend event: a `type` tag plus
the optional fields each branch inspects (`delta`, `contentIndex`,
`toolCall`, `message`, `reason`).  The event vocabulary is the one emitted
by the pi-ai bridge (`core/piai.ts`). -/

/-- The complete tool call carried by a `toolcall_end` event. -/
structure ToolCallPayload where
  id : String
  name : String
  arguments : Json

/-- One backend stream event. -/
inductive StreamEvent where
  | start (message : Option AssistantMessage)
  | text_start (contentIndex : Option Nat)
  | text_delta (delta : String) (contentIndex : Option Nat)
  | text_end (contentIndex : Option Nat)
  | thinking_start (contentIndex : Option Nat)
  | thinking_delta (delta : String) (contentIndex : Option Nat)
  | thinking_end (contentIndex : Option Nat)
  | toolcall_start (contentIndex : Option Nat)
  | toolcall_delta (delta : String) (contentIndex : Option Nat)
  | toolcall_end (toolCall : Option ToolCallPayload) (contentIndex : Option Nat)
  | done (reason : Option String) (message : Option AssistantMessage)
  | error (reason : Option String)

/-- A terminal backend event (`done` or `error`). -/
def StreamEvent.isTerminal : StreamEvent → Bool
  | .done _ _ => true
  | .error _ => true
  | _ => false

/-! ## Format A (OpenAI-style) response and chunk types -/

/-- The assistant message inside an OpenAI non-streaming response choice. -/
structure OAIResponseMessage where
  content : Option String
  tool_calls : Option (List OAIToolCall)

/-- One choice of an OpenAI non-streaming response. -/
structure OAIChoice where
  index : Nat
  message : OAIResponseMessage
  finish_reason : String

/-- OpenAI response usage block. -/
structure OAIUsage where
  prompt_tokens : Nat
  completion_tokens : Nat
  total_tokens : Nat

/-- An OpenAI non-streaming chat completion response. -/
structure OAIChatResponse where
  id : String
  object : String
  created : Nat
  model : String
  choices : List OAIChoice
  usage : OAIUsage

/-- One streamed tool-call entry inside a chunk delta (flattened
`index`/`id`/`type`/`function.name`/`function.arguments`). -/
structure OAIStreamToolCall where
  index : Nat
  id : String
  type : String
  name : String
  arguments : String

/-- The delta object of an OpenAI streaming chunk choice. -/
structure OAIDelta where
  role : Option String := none
  content : Option String := none
  tool_calls : Option (List OAIStreamToolCall) := none

/-- One choice of an OpenAI streaming chunk. -/
structure OAIChunkChoice where
  index : Nat
  delta : OAIDelta
  finish_reason : Option String

/-- An OpenAI streaming chunk. -/
structure OAIChunk where
  id : String
  object : String
  created : Nat
  model : String
  choices : List OAIChunkChoice

namespace MapperOpenAI

/-- The non-streaming stop-reason table of `fromPiAiResponse`
(`stop`, `length`, `toolUse`, `error`), with `|| "stop"` fallback. -/
def finishReasonTable : List (String × String) :=
  [("stop", "stop"), ("length", "length"), ("toolUse", "tool_calls"), ("error", "stop")]

def mapFinishReason (stopReason : String) : String :=
  jsOrString (finishReasonTable.lookup stopReason) "stop"

/-- The block loop of `fromPiAiResponse`: a left-to-right pass pushing text
strings and serialized tool calls; thinking blocks are skipped. -/
def collectResponseBlocks (blocks : List PiBlock) : List String × List OAIToolCall :=
  blocks.foldl
    (fun acc b =>
      match b with
      | PiBlock.text t => (acc.1 ++ [t], acc.2)
      | PiBlock.toolCall i n args => (acc.1, acc.2 ++ [{ id := i, name := n, arguments := jsonStringify args }])
      | _ => acc)
    ([], [])

/-- `fromPiAiResponse` of `mapper-openai.ts`. -/
def fromPiAiResponse (piaiMessage : AssistantMessage) (requestId : String)
    (model : String) (created : Nat) : OAIChatResponse :=
  let pair := collectResponseBlocks piaiMessage.content
  let contentBlocks := pair.1
  let toolCalls := pair.2
  { id := requestId,
    object := "chat.completion",
    created := created,
    model := model,
    choices := [{ index := 0,
                  message := { content := if contentBlocks.length > 0
                                          then some (String.join contentBlocks)
                                          else none,
                               tool_calls := if toolCalls.length > 0 then some toolCalls else none },
                  finish_reason := mapFinishReason piaiMessage.stopReason }],
    usage := { prompt_tokens := piaiMessage.usage.input,
               completion_tokens := piaiMessage.usage.output,
               total_tokens := piaiMessage.usage.input + piaiMessage.usage.output } }

/-- The streaming stop-reason table of `streamFromPiAiEvent`
(`stop`, `length`, `toolUse`), with `|| "stop"` fallback. -/
def streamFinishReasonTable : List (String × String) :=
  [("stop", "stop"), ("length", "length"), ("toolUse", "tool_calls")]

def mapStreamFinishReason (reason : String) : String :=
  jsOrString (streamFinishReasonTable.lookup reason) "stop"

/-- `streamFromPiAiEvent` of `mapper-openai.ts`: a generator yielding zero
or one chunk per backend event.  Only `text_delta` (with a truthy delta),
`toolcall_end` (with a tool call) and `done` yield; everything else is
absorbed. -/
def streamFromPiAiEvent (e : StreamEvent) (requestId : String) (model : String)
    (created : Nat) : List OAIChunk :=
  match e with
  | .text_delta delta contentIndex =>
    if delta ≠ "" then
      [{ id := requestId, object := "chat.completion.chunk", created := created, model := model,
         choices := [{ index := contentIndex.getD 0,
                       delta := { content := some delta },
                       finish_reason := none }] }]
    else []
  | .toolcall_end toolCall contentIndex =>
    match toolCall with
    | some tc =>
      [{ id := requestId, object := "chat.completion.chunk", created := created, model := model,
         choices := [{ index := contentIndex.getD 0,
                       delta := { tool_calls := some [{ index := 0, id := tc.id, type := "function",
                                                        name := tc.name,
                                                        arguments := jsonStringify tc.arguments }] },
                       finish_reason := none }] }]
    | none => []
  | .done reason _ =>
    [{ id := requestId, object := "chat.completion.chunk", created := created, model := model,
       choices := [{ index := 0,
                     delta := {},
                     finish_reason := some (mapStreamFinishReason (jsOrString reason "stop")) }] }]
  | _ => []

/-- Translate a whole backend event sequence (the per-event generator
outputs concatenated, as the streaming route does). -/
def streamAll (events : List StreamEvent) (requestId : String) (model : String)
    (created : Nat) : List OAIChunk :=
  (events.map (fun e => streamFromPiAiEvent e requestId model created)).flatten

end MapperOpenAI

/-! ## Format B (Anthropic-style) request types, from `mapper-anthropic.ts` -/

/-- The `content` of a `tool_result` block: a string or an arbitrary
array. -/
inductive AnthToolResultContent where
  | str (s : String)
  | arr (items : List Json)

/-- One Anthropic content block (`AnthropicContentBlockSchema`). -/
inductive AnthContentBlock where
  | text (text : String)
  | image (media_type : String) (data : String)
  | tool_use (id : String) (name : String) (input : Json)
  | tool_result (tool_use_id : String) (content : AnthToolResultContent) (is_error : Option Bool)

/-- Anthropic message content: a string or an array of blocks. -/
inductive AnthContent where
  | str (s : String)
  | blocks (bs : List AnthContentBlock)

/-- Anthropic roles (`AnthropicRoleSchema`). -/
inductive AnthRole where
  | user
  | assistant
deriving DecidableEq

/-- An Anthropic message. -/
structure AnthMessage where
  role : AnthRole
  content : AnthContent

/-- An Anthropic tool definition. -/
structure AnthTool where
  name : String
  description : String
  input_schema : Json

/-- An Anthropic messages request (the fields `toPiAiContext` reads). -/
structure AnthMessageRequest where
  model : String
  max_tokens : Nat
  messages : List AnthMessage
  system : Option String := none
  tools : Option (List AnthTool) := none
  stream : Bool := false

namespace MapperAnthropic

/-- The static Anthropic-side alias table (`MODEL_ALIASES`). -/
def MODEL_ALIASES : List (String × String) :=
  [("claude-3-opus-20240229", "claude-opus-4.5"),
   ("claude-3-sonnet-20240229", "claude-sonnet-4.5"),
   ("claude-3-5-sonnet-20240620", "claude-sonnet-4.5"),
   ("claude-3-haiku-20240307", "claude-haiku-4.5"),
   ("claude-3-opus", "claude-opus-4.5"),
   ("claude-3-sonnet", "claude-sonnet-4.5"),
   ("claude-3-haiku", "claude-haiku-4.5")]

/-- `MODEL_ALIASES[model] || model`. -/
def resolveModelAlias (model : String) : String :=
  jsOrString (MODEL_ALIASES.lookup model) model

/-- The user-branch block map of `toPiAiContext`: `text`, `image` and
`tool_use` are converted; any other block (in particular `tool_result`)
falls through to the default `text ""` case. -/
def convertUserBlock : AnthContentBlock → PiBlock
  | .text t => PiBlock.text t
  | .image mt d => PiBlock.image d (some mt)
  | .tool_use i n inp => PiBlock.toolCall i n inp
  | _ => PiBlock.text ""

/-- The assistant-branch block map: only `text` and `tool_use` are
converted; anything else falls through to `text ""`. -/
def convertAssistantBlock : AnthContentBlock → PiBlock
  | .text t => PiBlock.text t
  | .tool_use i n inp => PiBlock.toolCall i n inp
  | _ => PiBlock.text ""

/-- One iteration of the message loop of `toPiAiContext`. -/
def convertMessage (now : Nat) (msg : AnthMessage) : PiMessage :=
  match msg.role with
  | AnthRole.user =>
    { role := "user",
      content :=
        (match msg.content with
         | AnthContent.str s => [ContentElem.blk (PiBlock.text s)]
         | AnthContent.blocks bs => bs.map (fun b => ContentElem.blk (convertUserBlock b))),
      timestamp := some now }
  | AnthRole.assistant =>
    { role := "assistant",
      content :=
        (match msg.content with
         | AnthContent.str s => [ContentElem.blk (PiBlock.text s)]
         | AnthContent.blocks bs => bs.map (fun b => ContentElem.blk (convertAssistantBlock b))) }

/-- `convertTools`: copy name, description and `input_schema`. -/
def convertTools (tools : Option (List AnthTool)) : Option (List Tool) :=
  match tools with
  | none => none
  | some ts => some (ts.map (fun t => { name := t.name,
                                        description := t.description,
                                        parameters := some t.input_schema }))

/-- `toPiAiContext` of `mapper-anthropic.ts` (never throws). -/
def toPiAiContext (now : Nat) (request : AnthMessageRequest) : Context :=
  { systemPrompt := request.system,
    messages := request.messages.map (convertMessage now),
    tools := convertTools request.tools }

/-! ### Format B streaming translation -/

/-- The data payload of one emitted Anthropic SSE item (the fields that
vary; constant subfields such as `type`, the empty content array of
`message_start` and its zero usage are fixed by the constructor). -/
inductive AnthStreamData where
  | messageStartData (id : String) (model : String)
  | contentBlockDeltaData (index : Nat) (text : String)
  | contentBlockStopData (index : Nat)
  | messageDeltaData (output_tokens : Nat)
  | messageStopData (stop_reason : String)

/-- One emitted `{event, data}` pair. -/
structure AnthSSE where
  event : String
  data : AnthStreamData

/-- The streaming stop-reason table (`stop`, `length`, `toolUse`) with
`|| "end_turn"` fallback. -/
def streamStopReasonTable : List (String × String) :=
  [("stop", "end_turn"), ("length", "max_tokens"), ("toolUse", "tool_use")]

/-- `streamFromPiAiEvent` of `mapper-anthropic.ts`.  The source is four
independent `if` blocks (not an `if`/`else` chain), so the embedding is
their concatenation; at most one can fire per event since they test
disjoint `type` tags. -/
def streamFromPiAiEvent (e : StreamEvent) (requestId : String) (model : String) : List AnthSSE :=
  (match e with
   | .start (some _) => [{ event := "message_start",
                           data := AnthStreamData.messageStartData requestId model }]
   | _ => []) ++
  (match e with
   | .text_delta delta contentIndex =>
     if delta ≠ "" then
       [{ event := "content_block_delta",
          data := AnthStreamData.contentBlockDeltaData (contentIndex.getD 0) delta }]
     else []
   | _ => []) ++
  (match e with
   | .toolcall_end (some _) contentIndex =>
     [{ event := "content_block_stop",
        data := AnthStreamData.contentBlockStopData (contentIndex.getD 0) }]
   | _ => []) ++
  (match e with
   | .done reason (some message) =>
     [{ event := "message_delta",
        data := AnthStreamData.messageDeltaData message.usage.output },
      { event := "message_stop",
        data := AnthStreamData.messageStopData
          (jsOrString (streamStopReasonTable.lookup (jsOrString reason "stop")) "end_turn") }]
   | _ => [])

/-- Translate a whole backend event sequence (per-event outputs
concatenated, as the streaming route does). -/
def streamAll (events : List StreamEvent) (requestId : String) (model : String) : List AnthSSE :=
  (events.map (fun e => streamFromPiAiEvent e requestId model)).flatten

end MapperAnthropic

/-! ## Credential storage (`auth/storage.ts`) and auth middleware
(`auth/middleware.ts`) -/

/-- A stored OAuth credential record (`OAuthCredentials` in
`auth/types.ts`).  Timestamps are milliseconds since epoch, modelled as
`Int` because the middleware subtracts from them. -/
structure OAuthCredentials where
  accessToken : String
  refreshToken : String
  expiresAt : Int
  enterpriseUrl : Option String := none
  createdAt : Int

/-- The observable state of the auth file as `CredentialStorage.load` can
encounter it: absent, present but rejected by `JSON.parse`, or present and
parsed to a record with a `version` field and credentials. -/
inductive AuthFileState where
  | absent
  | malformed (raw : String)
  | record (version : Int) (credentials : OAuthCredentials)

/-- The body of `load`'s `try` block (read, parse, version check); a parse
failure is a thrown error. -/
def loadAttempt : AuthFileState → Except String (Option OAuthCredentials)
  | AuthFileState.absent => Except.ok none
  | AuthFileState.malformed _ => Except.error "Unexpected token in JSON"
  | AuthFileState.record v credentials =>
    Except.ok (if v ≠ 1 then none else some credentials)

/-- `CredentialStorage.load`: returns `null` when the file is absent;
otherwise runs the `try` body and catches any error into `null`.  The
result type is `Except` to make visible that no error escapes. -/
def CredentialStorage.load (st : AuthFileState) : Except String (Option OAuthCredentials) :=
  match st with
  | AuthFileState.absent => Except.ok none
  | st =>
    match loadAttempt st with
    | Except.ok r => Except.ok r
    | Except.error _ => Except.ok none

/-- `CredentialStorage.isExpired`: absent credentials count as expired;
otherwise compare now against `expiresAt` minus a 5-minute buffer. -/
def CredentialStorage.isExpired (st : AuthFileState) (now : Int) : Bool :=
  match CredentialStorage.load st with
  | Except.ok none => true
  | Except.ok (some credentials) => now > credentials.expiresAt - 5 * 60 * 1000
  | Except.error _ => true

/-- Outcome of the auth middleware for one request. -/
inductive AuthOutcome where
  | unauthorized (message : String)
  | authorized (accessToken : String) (enterpriseUrl : Option String) (source : String)

/-- The middleware produced by `createAuthMiddleware`, as a function of the
request's `Authorization` header, the stored credentials (the result of
`storage.load()`) and the current time.  `401` responses are
`unauthorized`; a pass attaches the auth context and continues. -/
def authMiddleware (mode : String) (authHeader : Option String)
    (stored : Option OAuthCredentials) (now : Int) : AuthOutcome :=
  if mode = "passthrough" then
    match authHeader with
    | some h =>
      if h.startsWith "Bearer " then
        AuthOutcome.authorized (h.drop 7) none "bearer"
      else AuthOutcome.unauthorized "Missing or invalid Authorization header"
    | none => AuthOutcome.unauthorized "Missing or invalid Authorization header"
  else
    match stored with
    | none => AuthOutcome.unauthorized "No OAuth credentials found. Please authenticate at /auth/login"
    | some credentials =>
      let buffer : Int := 5 * 60 * 1000
      if now > credentials.expiresAt - buffer then
        AuthOutcome.unauthorized "Token expired. Please re-authenticate at /auth/login"
      else
        AuthOutcome.authorized credentials.accessToken credentials.enterpriseUrl "managed"

/-! ## The chat-completions route handler (`api/openai/routes.ts`)

`toPiAiContext` is called before the handler's `try` block, so an error it
throws escapes the handler and is turned into a 500 response by the
app-level `onError` handler in `server.ts`.  A backend failure inside the
`try` is caught by the route's own `catch`, also a 500. -/

/-- What the route returns to the HTTP layer. -/
inductive HandlerResult where
  | ok (response : OAIChatResponse)
  | streamOk (chunks : List OAIChunk)
  | errorJson (status : Nat) (message : String) (type : String) (code : Option String)

/-- The `POST /v1/chat/completions` handler on an already-validated
request, with the backend modelled as its `complete` result (non-streaming)
and its event sequence (streaming). -/
def chatCompletionsHandler (now : Nat) (requestId : String) (created : Nat)
    (backendComplete : String → Context → Except String AssistantMessage)
    (backendEvents : String → Context → List StreamEvent)
    (request : OAIChatRequest) : HandlerResult :=
  let modelId := MapperOpenAI.resolveModelAlias request.model
  match MapperOpenAI.toPiAiContext now request with
  | Except.error e =>
    HandlerResult.errorJson 500 (jsOrString (some e) "Internal server error") "api_error" none
  | Except.ok context =>
    if request.stream then
      HandlerResult.streamOk
        ({ id := requestId, object := "chat.completion.chunk", created := created,
           model := request.model,
           choices := [{ index := 0, delta := { role := some "assistant" }, finish_reason := none }] }
         :: MapperOpenAI.streamAll (backendEvents modelId context) requestId request.model created)
    else
      match backendComplete modelId context with
      | Except.ok piaiMessage =>
        HandlerResult.ok (MapperOpenAI.fromPiAiResponse piaiMessage requestId request.model created)
      | Except.error err =>
        HandlerResult.errorJson 500
          (jsOrString (some err) "An error occurred during completion")
          "api_error" (some "internal_error")

/-! ## Derived notions used by the theorems -/

/-- The text strings of a pi-ai block list, in content order. -/
def textsOf (blocks : List PiBlock) : List String :=
  blocks.filterMap (fun b => match b with
    | PiBlock.text t => some t
    | _ => none)

/-- Does a Format-A chunk carry a non-null finish reason? -/
def chunkHasFinish (c : OAIChunk) : Bool :=
  c.choices.any (fun ch => ch.finish_reason.isSome)

/-- In `xs`, every `message_delta` item has a successor inside `xs`, and
that successor is a `message_stop` item. -/
def deltaImmediatelyStopped (xs : List MapperAnthropic.AnthSSE) : Prop :=
  ∀ i : Nat, (xs[i]?).map MapperAnthropic.AnthSSE.event = some "message_delta" →
    i + 1 < xs.length ∧ (xs[i + 1]?).map MapperAnthropic.AnthSSE.event = some "message_stop"

/-- The request contains an assistant message with a tool call whose
arguments string is not valid JSON. -/
def hasUnparseableToolCall (request : OAIChatRequest) : Prop :=
  ∃ m ∈ request.messages, m.role = OAIRole.assistant ∧
    ∃ tcs, m.tool_calls = some tcs ∧ ∃ tc ∈ tcs, jsonParse tc.arguments = none

/-- An HTTP client-error status (4xx). -/
def isClientErrorStatus (status : Nat) : Prop := 400 ≤ status ∧ status < 500

/-! ## Helper lemmas -/

theorem except_bind_ok {α β ε : Type} (a : α) (f : α → Except ε β) :
    (Except.ok a >>= f) = f a := rfl

theorem except_bind_error {α β ε : Type} (e : ε) (f : α → Except ε β) :
    ((Except.error e : Except ε α) >>= f) = Except.error e := rfl

/-- Every value in the OpenAI alias table is a nonempty string (so the JS
`||` fallback never fires on a present key). -/
theorem oai_lookup_ne_empty (m v : String)
    (h : MapperOpenAI.MODEL_ALIASES.lookup m = some v) : v ≠ "" := by
  simp only [MapperOpenAI.MODEL_ALIASES, List.lookup] at h
  repeat' split at h
  all_goals (cases h; try decide)

/-- Every value in the Anthropic alias table is a nonempty string. -/
theorem anth_lookup_ne_empty (m v : String)
    (h : MapperAnthropic.MODEL_ALIASES.lookup m = some v) : v ≠ "" := by
  simp only [MapperAnthropic.MODEL_ALIASES, List.lookup] at h
  repeat' split at h
  all_goals (cases h; try decide)

/-- The first component of the response-block fold is the accumulated texts
followed by the text of every text block, in order. -/
theorem collectResponseBlocks_go (blocks : List PiBlock) (acc : List String × List OAIToolCall) :
    (blocks.foldl
      (fun acc b =>
        match b with
        | PiBlock.text t => (acc.1 ++ [t], acc.2)
        | PiBlock.toolCall i n args =>
          (acc.1, acc.2 ++ [{ id := i, name := n, arguments := jsonStringify args }])
        | _ => acc)
      acc).1 = acc.1 ++ textsOf blocks := by
  induction blocks generalizing acc with
  | nil => simp [textsOf]
  | cons b rest ih =>
    cases b <;> simp [textsOf, List.foldl, ih]

/-- The collected content strings of `fromPiAiResponse` are exactly the
text-block texts in content order. -/
theorem collectResponseBlocks_fst (blocks : List PiBlock) :
    (MapperOpenAI.collectResponseBlocks blocks).1 = textsOf blocks := by
  have := collectResponseBlocks_go blocks ([], [])
  simpa [MapperOpenAI.collectResponseBlocks] using this

/-- A non-system, non-assistant OpenAI message converts to pi-ai messages
whose content has exactly one element. -/
theorem convertMessage_nonassistant_len (now : Nat) (msg : OAIMessage) (out : List PiMessage)
    (h : MapperOpenAI.convertMessage now msg = Except.ok out) :
    ∀ m ∈ out, m.role ≠ "assistant" → m.content.length = 1 := by
  intro m hm hrole
  cases hr : msg.role
  · simp [MapperOpenAI.convertMessage, hr] at h
    subst h
    simp at hm
  · simp [MapperOpenAI.convertMessage, hr] at h
    subst h
    simp at hm
    subst hm
    rfl
  · cases htc : MapperOpenAI.assistantToolBlocks msg.tool_calls with
    | error e =>
      simp [MapperOpenAI.convertMessage, hr, htc, except_bind_error] at h
    | ok tcB =>
      simp [MapperOpenAI.convertMessage, hr, htc, except_bind_ok] at h
      subst h
      simp at hm
      subst hm
      simp at hrole
  · simp [MapperOpenAI.convertMessage, hr] at h
    subst h
    simp at hm
    subst hm
    rfl

/-- Lifting of `convertMessage_nonassistant_len` over the message loop. -/
theorem convertMessages_nonassistant_len (now : Nat) (l : List OAIMessage) (msgs : List PiMessage)
    (h : MapperOpenAI.convertMessages now l = Except.ok msgs) :
    ∀ m ∈ msgs, m.role ≠ "assistant" → m.content.length = 1 := by
  induction l generalizing msgs with
  | nil =>
    simp [MapperOpenAI.convertMessages] at h
    subst h
    simp
  | cons x rest ih =>
    cases hx : MapperOpenAI.convertMessage now x with
    | error e =>
      simp [MapperOpenAI.convertMessages, hx, except_bind_error] at h
    | ok hd =>
      cases hrest : MapperOpenAI.convertMessages now rest with
      | error e =>
        simp [MapperOpenAI.convertMessages, hx, hrest, except_bind_ok, except_bind_error] at h
      | ok tl =>
        simp [MapperOpenAI.convertMessages, hx, hrest, except_bind_ok] at h
        subst h
        intro m hm hrole
        rcases List.mem_append.mp hm with h1 | h2
        · exact convertMessage_nonassistant_len now x hd hx m h1 hrole
        · exact ih tl hrest m h2 hrole

/-- A tool-call list containing an unparseable arguments string makes
`mkToolCallBlocks` throw. -/
theorem mkToolCallBlocks_error (tcs : List OAIToolCall)
    (h : ∃ tc ∈ tcs, jsonParse tc.arguments = none) :
    ∃ e, MapperOpenAI.mkToolCallBlocks tcs = Except.error e := by
  induction tcs with
  | nil => simp at h
  | cons tc rest ih =>
    rcases h with ⟨bad, hbad, hparse⟩
    rcases List.mem_cons.mp hbad with rfl | hmem
    · exact ⟨"Unexpected token in JSON", by simp [MapperOpenAI.mkToolCallBlocks, hparse]⟩
    · cases hp : jsonParse tc.arguments with
      | none => exact ⟨"Unexpected token in JSON", by simp [MapperOpenAI.mkToolCallBlocks, hp]⟩
      | some args =>
        rcases ih ⟨bad, hmem, hparse⟩ with ⟨e, he⟩
        exact ⟨e, by simp [MapperOpenAI.mkToolCallBlocks, hp, he, except_bind_error]⟩

/-- An assistant message with an unparseable tool call makes
`convertMessage` throw. -/
theorem convertMessage_error_of_bad (now : Nat) (msg : OAIMessage)
    (h1 : msg.role = OAIRole.assistant)
    (h2 : ∃ tcs, msg.tool_calls = some tcs ∧ ∃ tc ∈ tcs, jsonParse tc.arguments = none) :
    ∃ e, MapperOpenAI.convertMessage now msg = Except.error e := by
  rcases h2 with ⟨tcs, htcs, hbad⟩
  rcases mkToolCallBlocks_error tcs hbad with ⟨e, he⟩
  exact ⟨e, by simp [MapperOpenAI.convertMessage, h1, MapperOpenAI.assistantToolBlocks, htcs, he,
                     except_bind_error]⟩

/-- The message loop throws when some message converts with an error. -/
theorem convertMessages_error_of_bad (now : Nat) (l : List OAIMessage)
    (h : ∃ m ∈ l, ∃ e, MapperOpenAI.convertMessage now m = Except.error e) :
    ∃ e, MapperOpenAI.convertMessages now l = Except.error e := by
  induction l with
  | nil => simp at h
  | cons x rest ih =>
    rcases h with ⟨m, hm, e, he⟩
    rcases List.mem_cons.mp hm with rfl | hmem
    · exact ⟨e, by simp [MapperOpenAI.convertMessages, he, except_bind_error]⟩
    · cases hx : MapperOpenAI.convertMessage now x with
      | error e2 => exact ⟨e2, by simp [MapperOpenAI.convertMessages, hx, except_bind_error]⟩
      | ok hd =>
        rcases ih ⟨m, hmem, e, he⟩ with ⟨e2, he2⟩
        exact ⟨e2, by simp [MapperOpenAI.convertMessages, hx, he2, except_bind_ok,
                            except_bind_error]⟩

/-- Translating a concatenation of event sequences concatenates the
translations. -/
theorem streamAll_append (evs1 evs2 : List StreamEvent) (requestId model : String) (created : Nat) :
    MapperOpenAI.streamAll (evs1 ++ evs2) requestId model created =
      MapperOpenAI.streamAll evs1 requestId model created ++
        MapperOpenAI.streamAll evs2 requestId model created := by
  simp [MapperOpenAI.streamAll]

/-- A non-terminal backend event never contributes a finish-reason chunk. -/
theorem nonterminal_no_finish (e : StreamEvent) (requestId model : String) (created : Nat)
    (h : e.isTerminal = false) :
    (MapperOpenAI.streamFromPiAiEvent e requestId model created).countP chunkHasFinish = 0 := by
  cases e <;>
    simp_all [StreamEvent.isTerminal, MapperOpenAI.streamFromPiAiEvent, chunkHasFinish,
              List.countP, List.countP.go]
  · rename_i delta contentIndex
    split <;> simp [List.countP, List.countP.go, chunkHasFinish]
  · rename_i toolCall contentIndex
    cases toolCall <;> simp [List.countP, List.countP.go, chunkHasFinish]

/-- A sequence of non-terminal backend events yields no finish-reason
chunk. -/
theorem streamAll_nonterminal (pre : List StreamEvent) (requestId model : String) (created : Nat)
    (h : ∀ e ∈ pre, e.isTerminal = false) :
    (MapperOpenAI.streamAll pre requestId model created).countP chunkHasFinish = 0 := by
  induction pre with
  | nil => rfl
  | cons x rest ih =>
    have hx := h x (List.mem_cons_self x rest)
    have hrest : ∀ e ∈ rest, e.isTerminal = false := fun e he => h e (List.mem_cons_of_mem x he)
    have hsplit : MapperOpenAI.streamAll (x :: rest) requestId model created =
        MapperOpenAI.streamFromPiAiEvent x requestId model created ++
          MapperOpenAI.streamAll rest requestId model created := by
      simp [MapperOpenAI.streamAll]
    rw [hsplit, List.countP_append, nonterminal_no_finish x requestId model created hx, ih hrest]

/-- The adjacency property is preserved by concatenation. -/
theorem deltaImmediatelyStopped_append (xs ys : List MapperAnthropic.AnthSSE)
    (hx : deltaImmediatelyStopped xs) (hy : deltaImmediatelyStopped ys) :
    deltaImmediatelyStopped (xs ++ ys) := by
  intro i h
  by_cases hi : i < xs.length
  · rw [List.getElem?_append_left hi] at h
    rcases hx i h with ⟨hlt, hstop⟩
    refine ⟨by simp; omega, ?_⟩
    rw [List.getElem?_append_left hlt]
    exact hstop
  · have hge : xs.length ≤ i := Nat.le_of_not_lt hi
    rw [List.getElem?_append_right hge] at h
    rcases hy (i - xs.length) h with ⟨hlt, hstop⟩
    have hge1 : xs.length ≤ i + 1 := Nat.le_succ_of_le hge
    refine ⟨by simp; omega, ?_⟩
    rw [List.getElem?_append_right hge1]
    have hidx : i + 1 - xs.length = i - xs.length + 1 := by omega
    rw [hidx]
    exact hstop

/-- The output of one translated Format-B event satisfies the adjacency
property (a `message_delta` only ever appears as the first item of the
two-item `done` output, immediately followed by `message_stop`). -/
theorem deltaImmediatelyStopped_event (e : StreamEvent) (requestId model : String) :
    deltaImmediatelyStopped (MapperAnthropic.streamFromPiAiEvent e requestId model) := by
  intro i h
  cases e <;>
    simp only [MapperAnthropic.streamFromPiAiEvent, List.append_nil, List.nil_append] at h ⊢
  case start message =>
    cases message <;> rcases i with _ | i <;> simp_all
  case text_delta delta contentIndex =>
    split at h <;> rcases i with _ | i <;> simp_all
  case toolcall_end toolCall contentIndex =>
    cases toolCall <;> rcases i with _ | i <;> simp_all
  case done reason message =>
    cases message <;> rcases i with _ | _ | i <;> simp_all
  all_goals simp_all

/-- The whole translated Format-B stream satisfies the adjacency
property. -/
theorem deltaImmediatelyStopped_streamAll (events : List StreamEvent) (requestId model : String) :
    deltaImmediatelyStopped (MapperAnthropic.streamAll events requestId model) := by
  induction events with
  | nil => intro i h; simp [MapperAnthropic.streamAll] at h
  | cons x rest ih =>
    have hsplit : MapperAnthropic.streamAll (x :: rest) requestId model =
        MapperAnthropic.streamFromPiAiEvent x requestId model ++
          MapperAnthropic.streamAll rest requestId model := by
      simp [MapperAnthropic.streamAll]
    rw [hsplit]
    exact deltaImmediatelyStopped_append _ _ (deltaImmediatelyStopped_event x requestId model) ih

/-! ## Claim theorems -/

/-- C1 (amended): for every synthetic backend event sequence whose only
terminal event is a final `done`, the Format-A chunk sequence produced by
`streamFromPiAiEvent` contains exactly one chunk with a non-null
`finish_reason`, and that chunk is the last chunk.  (The original claim
also admitted an `error` terminal; an error-terminated sequence produces no
finish-reason chunk at all, see the counterexample.) -/
theorem C1_done_terminal_unique_finish (pre : List StreamEvent) (reason : Option String)
    (message : Option AssistantMessage) (requestId model : String) (created : Nat)
    (hpre : ∀ e ∈ pre, e.isTerminal = false) :
    (MapperOpenAI.streamAll (pre ++ [StreamEvent.done reason message]) requestId model
        created).countP chunkHasFinish = 1 ∧
    ∃ c, (MapperOpenAI.streamAll (pre ++ [StreamEvent.done reason message]) requestId model
            created).getLast? = some c ∧
         chunkHasFinish c = true := by
  obtain ⟨dc, hdc, hfin⟩ :
      ∃ dc, MapperOpenAI.streamAll [StreamEvent.done reason message] requestId model created
          = [dc] ∧ chunkHasFinish dc = true :=
    ⟨{ id := requestId, object := "chat.completion.chunk", created := created, model := model,
       choices := [{ index := 0, delta := {},
                     finish_reason := some (MapperOpenAI.mapStreamFinishReason
                       (jsOrString reason "stop")) }] },
     by simp [MapperOpenAI.streamAll, MapperOpenAI.streamFromPiAiEvent], rfl⟩
  rw [streamAll_append, hdc]
  refine ⟨?_, dc, List.getLast?_concat _, hfin⟩
  rw [List.countP_append, streamAll_nonterminal pre requestId model created hpre]
  simp [List.countP, List.countP.go, hfin]

/-- C1 counterexample to the claim as stated: a backend event sequence
ending in exactly one terminal event of kind `error` produces no chunk at
all, hence not exactly one chunk with a non-null `finish_reason`. -/
theorem C1_error_terminal_counterexample :
    MapperOpenAI.streamAll [StreamEvent.error (some "boom")] "req-1" "gpt-4" 0 = [] ∧
    ¬ ((MapperOpenAI.streamAll [StreamEvent.error (some "boom")] "req-1" "gpt-4" 0).countP
        chunkHasFinish = 1) :=
  ⟨rfl, by simp [MapperOpenAI.streamAll, MapperOpenAI.streamFromPiAiEvent, List.countP,
                 List.countP.go]⟩

/-- C1 witness: the amended theorem applied to the concrete sequence
text-delta then done. -/
theorem C1_done_terminal_unique_finish_witness :
    (MapperOpenAI.streamAll ([StreamEvent.text_delta "Hi" (some 0)] ++
        [StreamEvent.done (some "stop") none]) "req-1" "gpt-4" 0).countP chunkHasFinish = 1 ∧
    ∃ c, (MapperOpenAI.streamAll ([StreamEvent.text_delta "Hi" (some 0)] ++
            [StreamEvent.done (some "stop") none]) "req-1" "gpt-4" 0).getLast? = some c ∧
         chunkHasFinish c = true :=
  C1_done_terminal_unique_finish [StreamEvent.text_delta "Hi" (some 0)] (some "stop") none
    "req-1" "gpt-4" 0 (by intro e he; simp at he; subst he; rfl)

/-- C2: evaluation of the Format-B `toPiAiContext` at a request containing
a `tool_result` block with `is_error` set: the block is not carried through
losslessly — it falls into the mapper's default case and becomes an empty
text block; the `tool_use_id`, the result content and the `is_error` flag
are all dropped from the produced context.  This contradicts the spec and
the intent visible in `AnthropicContentBlockSchema`, which deliberately
parses `is_error`. -/
theorem C2_tool_result_dropped :
    (MapperAnthropic.toPiAiContext 0
      { model := "claude-3-opus", max_tokens := 16,
        messages := [{ role := AnthRole.user,
                       content := AnthContent.blocks
                         [AnthContentBlock.tool_result "toolu_1"
                           (AnthToolResultContent.str "boom") (some true)] }] }).messages
      = [{ role := "user",
           content := [ContentElem.blk (PiBlock.text "")],
           timestamp := some 0 }] := by rfl

/-- C3 (amended): the never-empty-content invariant holds only partially.
Format-A user and tool-result messages always carry exactly one content
element; a Format-B message has empty content only when its source content
is an empty block array.  (Format-A assistant messages with empty text and
no tool calls violate the invariant, see the counterexample; and empty
user text is carried as a raw empty string element, not as an explicit
empty-text block.) -/
theorem C3_nonempty_content_amended :
    (∀ (now : Nat) (request : OAIChatRequest) (ctx : Context),
       MapperOpenAI.toPiAiContext now request = Except.ok ctx →
       ∀ m ∈ ctx.messages, m.role ≠ "assistant" → m.content.length = 1) ∧
    (∀ (now : Nat) (request : AnthMessageRequest) (m : PiMessage),
       m ∈ (MapperAnthropic.toPiAiContext now request).messages →
       m.content = [] → ∃ src ∈ request.messages, src.content = AnthContent.blocks []) := by
  constructor
  · intro now request ctx hctx m hm hrole
    cases hmsgs : MapperOpenAI.convertMessages now request.messages with
    | error e =>
      simp [MapperOpenAI.toPiAiContext, hmsgs, except_bind_error] at hctx
    | ok msgs =>
      simp [MapperOpenAI.toPiAiContext, hmsgs, except_bind_ok] at hctx
      subst hctx
      exact convertMessages_nonassistant_len now request.messages msgs hmsgs m hm hrole
  · intro now request m hm hempty
    simp only [MapperAnthropic.toPiAiContext] at hm
    rcases List.mem_map.mp hm with ⟨src, hsrc, rfl⟩
    refine ⟨src, hsrc, ?_⟩
    cases hr : src.role <;> cases hc : src.content <;>
      simp [MapperAnthropic.convertMessage, hr, hc] at hempty ⊢ <;>
      simp [hempty]

/-- C3 counterexample to the claim as stated: a Format-A request with an
assistant message carrying no content and no tool calls normalizes to a
context whose only message has an empty content sequence. -/
theorem C3_empty_assistant_counterexample :
    MapperOpenAI.toPiAiContext 0
      { model := "gpt-4",
        messages := [{ role := OAIRole.assistant }] }
      = Except.ok { systemPrompt := none,
                    messages := [{ role := "assistant", content := [] }],
                    tools := none } := by rfl

/-- C3 witness: the amended theorem applied to a concrete one-user-message
request. -/
theorem C3_nonempty_content_amended_witness :
    ({ role := "user", content := [ContentElem.raw "Hi"],
       timestamp := some 0 } : PiMessage).content.length = 1 :=
  C3_nonempty_content_amended.1 0
    { model := "gpt-4", messages := [{ role := OAIRole.user, content := some (OAIContent.str "Hi") }] }
    { systemPrompt := none,
      messages := [{ role := "user", content := [ContentElem.raw "Hi"], timestamp := some 0 }],
      tools := none }
    (by rfl)
    { role := "user", content := [ContentElem.raw "Hi"], timestamp := some 0 }
    (List.mem_singleton.mpr rfl)
    (by decide)

/-- C4 (amended): a Format-A request containing an assistant message with a
tool call whose arguments string is not valid JSON makes `toPiAiContext`
throw, and the request is never completed: the chat-completions handler
surfaces the failure as an error response — but with the server-error
status 500 (the throw happens before the route's `try` block and is caught
by the app-level error handler), not with a client-error status as the
claim states (see the counterexample). -/
theorem C4_invalid_toolcall_args_amended (now : Nat) (requestId : String) (created : Nat)
    (backendComplete : String → Context → Except String AssistantMessage)
    (backendEvents : String → Context → List StreamEvent)
    (request : OAIChatRequest)
    (h : hasUnparseableToolCall request) :
    (∃ e, MapperOpenAI.toPiAiContext now request = Except.error e) ∧
    (∃ msg, chatCompletionsHandler now requestId created backendComplete backendEvents request
       = HandlerResult.errorJson 500 msg "api_error" none) := by
  rcases h with ⟨m, hm, hrole, hbad⟩
  have h1 := convertMessage_error_of_bad now m hrole hbad
  have h2 := convertMessages_error_of_bad now request.messages ⟨m, hm, h1⟩
  rcases h2 with ⟨e, he⟩
  have hctx : MapperOpenAI.toPiAiContext now request = Except.error e := by
    simp [MapperOpenAI.toPiAiContext, he, except_bind_error]
  refine ⟨⟨e, hctx⟩, ⟨jsOrString (some e) "Internal server error", ?_⟩⟩
  simp [chatCompletionsHandler, hctx]

/-- C4 counterexample to the claim as stated: at a concrete request with an
unparseable tool-call arguments string, the handler responds with status
500, which is not a client-error (4xx) status. -/
theorem C4_server_error_counterexample :
    chatCompletionsHandler 0 "req-1" 0 (fun _ _ => Except.error "unused") (fun _ _ => [])
      { model := "gpt-4",
        messages := [{ role := OAIRole.assistant,
                       tool_calls := some [{ id := "call_1", name := "get_weather",
                                             arguments := "not json" }] }] }
      = HandlerResult.errorJson 500 "Unexpected token in JSON" "api_error" none ∧
    ¬ isClientErrorStatus 500 :=
  ⟨by rfl, by simp [isClientErrorStatus]⟩

/-- C4 witness: the amended theorem applied to the concrete failing
request. -/
theorem C4_invalid_toolcall_args_amended_witness :
    (∃ e, MapperOpenAI.toPiAiContext 0
      { model := "gpt-4",
        messages := [{ role := OAIRole.assistant,
                       tool_calls := some [{ id := "call_1", name := "get_weather",
                                             arguments := "not json" }] }] } = Except.error e) ∧
    (∃ msg, chatCompletionsHandler 0 "req-1" 0 (fun _ _ => Except.error "unused") (fun _ _ => [])
      { model := "gpt-4",
        messages := [{ role := OAIRole.assistant,
                       tool_calls := some [{ id := "call_1", name := "get_weather",
                                             arguments := "not json" }] }] }
       = HandlerResult.errorJson 500 msg "api_error" none) :=
  C4_invalid_toolcall_args_amended 0 "req-1" 0 (fun _ _ => Except.error "unused") (fun _ _ => [])
    _ ⟨{ role := OAIRole.assistant,
         tool_calls := some [{ id := "call_1", name := "get_weather", arguments := "not json" }] },
       List.mem_singleton.mpr rfl, rfl,
       [{ id := "call_1", name := "get_weather", arguments := "not json" }], rfl,
       { id := "call_1", name := "get_weather", arguments := "not json" },
       List.mem_singleton.mpr rfl, by rfl⟩

/-- C5: in managed mode, a stored credential expiring exactly 4 minutes
after now is rejected with the expiry error (and counts as expired in
`CredentialStorage.isExpired`), while one expiring exactly 6 minutes after
now passes and the access token is attached — the check compares
`expiresAt` against now plus a fixed 5-minute buffer. -/
theorem C5_expiry_boundary (now : Int) (authHeader : Option String)
    (credentials : OAuthCredentials) :
    (credentials.expiresAt = now + 4 * 60 * 1000 →
      authMiddleware "managed" authHeader (some credentials) now =
        AuthOutcome.unauthorized "Token expired. Please re-authenticate at /auth/login" ∧
      CredentialStorage.isExpired (AuthFileState.record 1 credentials) now = true) ∧
    (credentials.expiresAt = now + 6 * 60 * 1000 →
      authMiddleware "managed" authHeader (some credentials) now =
        AuthOutcome.authorized credentials.accessToken credentials.enterpriseUrl "managed" ∧
      CredentialStorage.isExpired (AuthFileState.record 1 credentials) now = false) := by
  have hmode : ¬ ("managed" = "passthrough") := by decide
  have hload : CredentialStorage.load (AuthFileState.record 1 credentials) =
      Except.ok (some credentials) := rfl
  constructor <;> intro h
  · have hexp : now > credentials.expiresAt - 5 * 60 * 1000 := by omega
    constructor
    · simp only [authMiddleware, if_neg hmode, if_pos hexp]
    · simp only [CredentialStorage.isExpired, hload]
      simp
      omega
  · have hexp : ¬ (now > credentials.expiresAt - 5 * 60 * 1000) := by omega
    constructor
    · simp only [authMiddleware, if_neg hmode, if_neg hexp]
    · simp only [CredentialStorage.isExpired, hload]
      simp
      omega

/-- C5 witness: the theorem applied at a concrete time and concrete
credentials on both sides of the boundary. -/
theorem C5_expiry_boundary_witness :
    (authMiddleware "managed" none
      (some { accessToken := "tok", refreshToken := "r", expiresAt := 1240000,
              createdAt := 0 }) 1000000
      = AuthOutcome.unauthorized "Token expired. Please re-authenticate at /auth/login") ∧
    (authMiddleware "managed" none
      (some { accessToken := "tok", refreshToken := "r", expiresAt := 1360000,
              createdAt := 0 }) 1000000
      = AuthOutcome.authorized "tok" none "managed") :=
  ⟨((C5_expiry_boundary 1000000 none
      { accessToken := "tok", refreshToken := "r", expiresAt := 1240000,
        createdAt := 0 }).1 (by decide)).1,
   ((C5_expiry_boundary 1000000 none
      { accessToken := "tok", refreshToken := "r", expiresAt := 1360000,
        createdAt := 0 }).2 (by decide)).1⟩

/-- C6: in the Format-B streaming translation, for every backend event
sequence, an emitted `message_delta` item is always immediately followed by
a `message_stop` item — never the reverse order, never separated by another
emitted item. -/
theorem C6_message_delta_stop_adjacent (events : List StreamEvent) (requestId model : String)
    (i : Nat)
    (h : ((MapperAnthropic.streamAll events requestId model)[i]?).map
            MapperAnthropic.AnthSSE.event = some "message_delta") :
    ((MapperAnthropic.streamAll events requestId model)[i + 1]?).map
        MapperAnthropic.AnthSSE.event = some "message_stop" :=
  (deltaImmediatelyStopped_streamAll events requestId model i h).2

/-- C6 witness: the theorem applied to a concrete `done` event, whose
translation is exactly the pair message-delta, message-stop. -/
theorem C6_message_delta_stop_adjacent_witness :
    ((MapperAnthropic.streamAll
        [StreamEvent.done (some "stop")
          (some { content := [], stopReason := "stop", usage := { input := 1, output := 2 } })]
        "req-1" "claude-3-opus")[1]?).map MapperAnthropic.AnthSSE.event = some "message_stop" :=
  C6_message_delta_stop_adjacent
    [StreamEvent.done (some "stop")
      (some { content := [], stopReason := "stop", usage := { input := 1, output := 2 } })]
    "req-1" "claude-3-opus" 0 (by rfl)

/-- C7: both `resolveModelAlias` functions return the mapped backend id for
identifiers present in their alias table and return the input unchanged for
identifiers absent from it; no input is ever rejected (the functions are
total). -/
theorem C7_alias_resolution (m : String) :
    (MapperOpenAI.MODEL_ALIASES.lookup m = none → MapperOpenAI.resolveModelAlias m = m) ∧
    (∀ v, MapperOpenAI.MODEL_ALIASES.lookup m = some v → MapperOpenAI.resolveModelAlias m = v) ∧
    (MapperAnthropic.MODEL_ALIASES.lookup m = none → MapperAnthropic.resolveModelAlias m = m) ∧
    (∀ v, MapperAnthropic.MODEL_ALIASES.lookup m = some v →
      MapperAnthropic.resolveModelAlias m = v) := by
  refine ⟨fun h => ?_, fun v h => ?_, fun h => ?_, fun v h => ?_⟩
  · simp [MapperOpenAI.resolveModelAlias, jsOrString, h]
  · simp [MapperOpenAI.resolveModelAlias, jsOrString, h, oai_lookup_ne_empty m v h]
  · simp [MapperAnthropic.resolveModelAlias, jsOrString, h]
  · simp [MapperAnthropic.resolveModelAlias, jsOrString, h, anth_lookup_ne_empty m v h]

/-- C7 witness: the theorem applied to an unknown identifier and to table
entries of both mappers. -/
theorem C7_alias_resolution_witness :
    MapperOpenAI.resolveModelAlias "unknown-model" = "unknown-model" ∧
    MapperOpenAI.resolveModelAlias "gpt-4" = "claude-sonnet-4.5" ∧
    MapperAnthropic.resolveModelAlias "claude-9" = "claude-9" ∧
    MapperAnthropic.resolveModelAlias "claude-3-opus" = "claude-opus-4.5" :=
  ⟨(C7_alias_resolution "unknown-model").1 (by rfl),
   (C7_alias_resolution "gpt-4").2.1 "claude-sonnet-4.5" (by rfl),
   (C7_alias_resolution "claude-9").2.2.1 (by rfl),
   (C7_alias_resolution "claude-3-opus").2.2.2 "claude-opus-4.5" (by rfl)⟩

/-- C8: the Format-A `fromPiAiResponse` sets the response message content
to the concatenation of all text blocks' text in content order, `null`
(`none`) when no text blocks are present, and sets `usage.total_tokens` to
the sum of the backend input and output token counts. -/
theorem C8_response_content_and_usage (piaiMessage : AssistantMessage)
    (requestId model : String) (created : Nat) :
    ∃ choice,
      (MapperOpenAI.fromPiAiResponse piaiMessage requestId model created).choices = [choice] ∧
      choice.message.content =
        (if textsOf piaiMessage.content = [] then none
         else some (String.join (textsOf piaiMessage.content))) ∧
      (MapperOpenAI.fromPiAiResponse piaiMessage requestId model created).usage.total_tokens
        = piaiMessage.usage.input + piaiMessage.usage.output := by
  refine ⟨_, rfl, ?_, rfl⟩
  simp only [MapperOpenAI.fromPiAiResponse, collectResponseBlocks_fst]
  rcases htexts : textsOf piaiMessage.content with _ | ⟨t, ts⟩ <;> simp [htexts]

/-- C9: a backend text-delta event whose delta is the empty string produces
no output in either streaming translator — the empty delta is silently
dropped. -/
theorem C9_empty_delta_dropped (contentIndex : Option Nat) (requestId model : String)
    (created : Nat) :
    MapperOpenAI.streamFromPiAiEvent (StreamEvent.text_delta "" contentIndex) requestId model
      created = [] ∧
    MapperAnthropic.streamFromPiAiEvent (StreamEvent.text_delta "" contentIndex) requestId model
      = [] := by
  constructor <;> simp [MapperOpenAI.streamFromPiAiEvent, MapperAnthropic.streamFromPiAiEvent]

/-- C10: `CredentialStorage.load` is total at its interface: it always
returns (never throws); a file whose contents fail to parse as JSON yields
`none`, indistinguishable from an absent file; a parsed record whose
version is not 1 also yields `none`. -/
theorem C10_load_total (st : AuthFileState) :
    (∃ r, CredentialStorage.load st = Except.ok r) ∧
    (∀ raw, CredentialStorage.load (AuthFileState.malformed raw) = Except.ok none) ∧
    (∀ raw, CredentialStorage.load (AuthFileState.malformed raw) =
      CredentialStorage.load AuthFileState.absent) ∧
    (∀ v credentials, v ≠ 1 →
      CredentialStorage.load (AuthFileState.record v credentials) = Except.ok none) := by
  refine ⟨?_, fun raw => rfl, fun raw => rfl, fun v credentials hv => ?_⟩
  · cases st with
    | absent => exact ⟨none, rfl⟩
    | malformed raw => exact ⟨none, rfl⟩
    | record v c => exact ⟨if v ≠ 1 then none else some c, rfl⟩
  · simp [CredentialStorage.load, loadAttempt, hv]

/-- C10 witness: the theorem applied to a version-2 record. -/
theorem C10_load_total_witness :
    CredentialStorage.load (AuthFileState.record 2
      { accessToken := "tok", refreshToken := "r", expiresAt := 0, createdAt := 0 }) =
      Except.ok none :=
  (C10_load_total AuthFileState.absent).2.2.2 2
    { accessToken := "tok", refreshToken := "r", expiresAt := 0, createdAt := 0 } (by decide)

end GCopilotProxy
